import Mathlib

/-
Verification of the MQTT discovery-payload library (cover + number entities).

The Rust structs `Cover` (src/mqtt/cover.rs) and `Number` (src/mqtt/number.rs)
are embedded as Lean structures, and their serde serialization (compact-key
renaming, `skip_serializing_if = "Option::is_none"` omission, `#[serde(flatten)]`
for availability) is embedded as a function producing an ordered key/value list,
in declaration order, exactly as serde emits it.

The shared blocks `Availability`, `Device`, `Origin`, and the `Unit`, `Qos`,
`EntityCategory` enumerations live in the crate's `common`/`units` modules,
which are not part of the visible sources; those are modelled from the spec
(each such definition carries a doc comment saying so).
-/

namespace HaMqtt

/-- A JSON-like document tree: the target of serialization.  Numeric values are
modelled as rationals (the claims never compute with them, only test presence). -/
inductive Json where
  | null : Json
  | bool : Bool → Json
  | num : Rat → Json
  | str : String → Json
  | arr : List Json → Json
  | obj : List (String × Json) → Json

/-- First value stored under key `k`, scanning left to right (JSON object lookup). -/
def lookupKey (k : String) : List (String × Json) → Option Json
  | [] => none
  | p :: rest => if k = p.fst then some p.snd else lookupKey k rest

/-- Serde field with `skip_serializing_if = "Option::is_none"`: emitted only when set. -/
def optField {α : Type} (k : String) (v : Option α) (f : α → Json) : List (String × Json) :=
  match v with
  | none => []
  | some x => [(k, f x)]

/-- Serde `Option` field WITHOUT a skip attribute: always emitted, `None` as `null`. -/
def nullableField {α : Type} (k : String) (v : Option α) (f : α → Json) : List (String × Json) :=
  [(k, match v with
       | none => Json.null
       | some x => f x)]

/-- Modelled from the spec: OriginDescriptor — metadata about the software producing
the discovery payload (name, version, support URL); `common::Origin` is absent from
`src/`.  Field set follows the construction in the `can_serialize_sensor` test. -/
structure Origin where
  name : String
  sw_version : Option String
  support_url : Option String
deriving DecidableEq

/-- Modelled from the spec: serialization of Origin.  The test only exercises the
`name` key; the optional fields follow the uniform omission rule. -/
def Origin.serialize (o : Origin) : List (String × Json) :=
  [("name", Json.str o.name)]
  ++ optField "sw" o.sw_version Json.str
  ++ optField "url" o.support_url Json.str

/-- Modelled from the spec: DeviceDescriptor — device-level metadata shared by all
entities of one physical device; `common::Device` is absent from `src/`.  Field set
follows the construction in the `can_serialize_sensor` test. -/
structure Device where
  name : Option String
  identifiers : List String
  connections : List (String × String)
  configuration_url : Option String
  manufacturer : Option String
  model : Option String
  suggested_area : Option String
  sw_version : Option String
  hw_version : Option String
  via_device : Option String
deriving DecidableEq

/-- Modelled from the spec: serialization of Device.  The test only exercises the
`name` key; the other fields follow the uniform omission rule (optionals omitted
when unset, lists omitted when empty). -/
def Device.serialize (d : Device) : List (String × Json) :=
  optField "name" d.name Json.str
  ++ (match d.identifiers with
      | [] => []
      | ids => [("ids", Json.arr (ids.map Json.str))])
  ++ (match d.connections with
      | [] => []
      | cs => [("cns", Json.arr (cs.map (fun c => Json.arr [Json.str c.fst, Json.str c.snd])))])
  ++ optField "cu" d.configuration_url Json.str
  ++ optField "mf" d.manufacturer Json.str
  ++ optField "mdl" d.model Json.str
  ++ optField "sa" d.suggested_area Json.str
  ++ optField "sw" d.sw_version Json.str
  ++ optField "hw" d.hw_version Json.str
  ++ optField "via_device" d.via_device Json.str

/-- Modelled from the spec: the availability combination mode
(`enum{All, Any, Latest}`, default `Latest`); `common::Availability` is absent
from `src/`. -/
inductive AvailabilityMode where
  | All : AvailabilityMode
  | Any : AvailabilityMode
  | Latest : AvailabilityMode
deriving DecidableEq

/-- Modelled from the spec: the wire tag of each availability mode. -/
def AvailabilityMode.tag : AvailabilityMode → String
  | AvailabilityMode.All => "all"
  | AvailabilityMode.Any => "any"
  | AvailabilityMode.Latest => "latest"

/-- Modelled from the spec: one availability entry
`{ topic, payload_available (default "online"), payload_not_available (default
"offline"), value_extraction_rule }`. -/
structure AvailabilityEntry where
  topic : String
  payload_available : String
  payload_not_available : String
  value_template : Option String
deriving DecidableEq

/-- Modelled from the spec: an entry lowers to a compact object
`{t, pl_avail, pl_not_avail, val_tpl}` with defaults omitted. -/
def AvailabilityEntry.serialize (e : AvailabilityEntry) : Json :=
  Json.obj ([("t", Json.str e.topic)]
    ++ (if e.payload_available = "online" then []
        else [("pl_avail", Json.str e.payload_available)])
    ++ (if e.payload_not_available = "offline" then []
        else [("pl_not_avail", Json.str e.payload_not_available)])
    ++ optField "val_tpl" e.value_template Json.str)

/-- Modelled from the spec: the Availability aggregate
`{ mode (default Latest), entries, single_topic_shortcut }` plus the optional
expiry attached by `expire_after`; `common::Availability` is absent from `src/`. -/
structure Availability where
  mode : AvailabilityMode
  entries : List AvailabilityEntry
  single_topic_shortcut : Option AvailabilityEntry
  expire_after : Option Nat
deriving DecidableEq

/-- Modelled from the spec: `single_topic(topic)` — one entry with the default
payload strings and `mode = Latest`. -/
def Availability.single_topic (topic : String) : Availability :=
  { mode := AvailabilityMode.Latest,
    entries := [{ topic := topic, payload_available := "online",
                  payload_not_available := "offline", value_template := none }],
    single_topic_shortcut := none,
    expire_after := none }

/-- Modelled from the spec: `expire_after(seconds)` attaches an optional expiry
duration and (per the spec's description) changes nothing else. -/
def Availability.set_expire_after (a : Availability) (seconds : Nat) : Availability :=
  { a with expire_after := some seconds }

/-- Configuration error raised at construction time. -/
inductive ConfigError where
  | conflict : ConfigError
deriving DecidableEq

/-- Modelled from the spec: constructing an Availability from the legacy
single-topic shortcut and the entry list.  The invariant "if
`single_topic_shortcut` is present, `entries` must be empty" is a
construction-time error, not a silently-resolved ambiguity. -/
def Availability.construct (shortcut : Option AvailabilityEntry)
    (entries : List AvailabilityEntry) (mode : AvailabilityMode) :
    Except ConfigError Availability :=
  match shortcut, entries with
  | some _, _ :: _ => Except.error ConfigError.conflict
  | _, _ =>
      Except.ok { mode := mode, entries := entries,
                  single_topic_shortcut := shortcut, expire_after := none }

/-- Modelled from the spec: the `avty_mode` segment — the mode lowers to its
short tag only when it differs from `latest`. -/
def Availability.modeField (m : AvailabilityMode) : List (String × Json) :=
  if m = AvailabilityMode.Latest then []
  else [("avty_mode", Json.str (AvailabilityMode.tag m))]

/-- Modelled from the spec: the `avty` segment — the ordered entry list as
compact objects, omitted when there are no entries. -/
def Availability.entriesField (es : List AvailabilityEntry) : List (String × Json) :=
  match es with
  | [] => []
  | e :: rest => [("avty", Json.arr ((e :: rest).map AvailabilityEntry.serialize))]

/-- Modelled from the spec: the flattened serialization of Availability — the
mode tag only when it differs from `latest`, the entries as a compact list, the
expiry seconds (key `exp_aft`, as asserted by the repository's test), and the
legacy shortcut under the abbreviated availability-topic key. -/
def Availability.serialize (a : Availability) : List (String × Json) :=
  optField "avty_t" a.single_topic_shortcut (fun e => Json.str e.topic)
  ++ Availability.modeField a.mode
  ++ Availability.entriesField a.entries
  ++ optField "exp_aft" a.expire_after (fun s => Json.num s)

/-- Modelled from the spec: the category of the entity (`common::EntityCategory`
is absent from `src/`); a closed enumeration, only its presence matters here. -/
inductive EntityCategory where
  | Config : EntityCategory
  | Diagnostic : EntityCategory
deriving DecidableEq

/-- Modelled from the spec: short tag of the entity category. -/
def EntityCategory.toJson : EntityCategory → Json
  | EntityCategory.Config => Json.str "config"
  | EntityCategory.Diagnostic => Json.str "diagnostic"

/-- Modelled from the spec: the maximum QoS level (`common::Qos` is absent from
`src/`); carried as a plain optional integer field (0, 1 or 2). -/
inductive Qos where
  | AtMostOnce : Qos
  | AtLeastOnce : Qos
  | ExactlyOnce : Qos
deriving DecidableEq

/-- Modelled from the spec: QoS serializes as its integer level. -/
def Qos.toJson : Qos → Json
  | Qos.AtMostOnce => Json.num 0
  | Qos.AtLeastOnce => Json.num 1
  | Qos.ExactlyOnce => Json.num 2

/-- `DisplayMode` from src/mqtt/number.rs (variants `Box`, `Slider`). -/
inductive DisplayMode where
  | Box : DisplayMode
  | Slider : DisplayMode
deriving DecidableEq

/-- The serde rename tags of `DisplayMode` (src/mqtt/number.rs lines 94-99). -/
def DisplayMode.tag : DisplayMode → String
  | DisplayMode.Box => "box"
  | DisplayMode.Slider => "slider"

/-- The Rust variant identifiers of `DisplayMode`, for contrast with the tags. -/
def DisplayMode.variantName : DisplayMode → String
  | DisplayMode.Box => "Box"
  | DisplayMode.Slider => "Slider"

/-- `NumberDeviceClass` from src/mqtt/number.rs (lines 101-239). -/
inductive NumberDeviceClass where
  | ApparentPower | Aqi | AtmosphericPressure | Battery | CarbonDioxide
  | CarbonMonoxide | Current | DataRate | DataSize | Distance
  | Energy | EnergyStorage | Frequency | Gas | Humidity
  | Illuminance | Irradiance | Moisture | Monetary | NitrogenDioxide
  | NitrogenMonoxide | NitrousOxide | Ozone | Ph | Pm1
  | Pm10 | Pm25 | PowerFactor | Power | Precipitation
  | PrecipitationIntensity | Pressure | ReactivePower | SignalStrength | SoundPressure
  | Speed | SulphurDioxide | Temperature | VolatileOrganicCompounds | Voltage
  | Volume | VolumeStorage | Water | Weight | WindSpeed
deriving DecidableEq

/-- The serde rename tags of `NumberDeviceClass` (src/mqtt/number.rs). -/
def NumberDeviceClass.tag : NumberDeviceClass → String
  | NumberDeviceClass.ApparentPower => "apparent_power"
  | NumberDeviceClass.Aqi => "aqi"
  | NumberDeviceClass.AtmosphericPressure => "atmospheric_pressure"
  | NumberDeviceClass.Battery => "battery"
  | NumberDeviceClass.CarbonDioxide => "carbon_dioxide"
  | NumberDeviceClass.CarbonMonoxide => "carbon_monoxide"
  | NumberDeviceClass.Current => "current"
  | NumberDeviceClass.DataRate => "data_rate"
  | NumberDeviceClass.DataSize => "data_size"
  | NumberDeviceClass.Distance => "distance"
  | NumberDeviceClass.Energy => "energy"
  | NumberDeviceClass.EnergyStorage => "energy_storage"
  | NumberDeviceClass.Frequency => "frequency"
  | NumberDeviceClass.Gas => "gas"
  | NumberDeviceClass.Humidity => "humidity"
  | NumberDeviceClass.Illuminance => "illuminance"
  | NumberDeviceClass.Irradiance => "irradiance"
  | NumberDeviceClass.Moisture => "moisture"
  | NumberDeviceClass.Monetary => "monetary"
  | NumberDeviceClass.NitrogenDioxide => "nitrogen_dioxide"
  | NumberDeviceClass.NitrogenMonoxide => "nitrogen_monoxide"
  | NumberDeviceClass.NitrousOxide => "nitrous_oxide"
  | NumberDeviceClass.Ozone => "ozone"
  | NumberDeviceClass.Ph => "ph"
  | NumberDeviceClass.Pm1 => "pm1"
  | NumberDeviceClass.Pm10 => "pm10"
  | NumberDeviceClass.Pm25 => "pm25"
  | NumberDeviceClass.PowerFactor => "power_factor"
  | NumberDeviceClass.Power => "power"
  | NumberDeviceClass.Precipitation => "precipitation"
  | NumberDeviceClass.PrecipitationIntensity => "precipitation_intensity"
  | NumberDeviceClass.Pressure => "pressure"
  | NumberDeviceClass.ReactivePower => "reactive_power"
  | NumberDeviceClass.SignalStrength => "signal_strength"
  | NumberDeviceClass.SoundPressure => "sound_pressure"
  | NumberDeviceClass.Speed => "speed"
  | NumberDeviceClass.SulphurDioxide => "sulphur_dioxide"
  | NumberDeviceClass.Temperature => "temperature"
  | NumberDeviceClass.VolatileOrganicCompounds => "volatile_organic_compounds"
  | NumberDeviceClass.Voltage => "voltage"
  | NumberDeviceClass.Volume => "volume"
  | NumberDeviceClass.VolumeStorage => "volume_storage"
  | NumberDeviceClass.Water => "water"
  | NumberDeviceClass.Weight => "weight"
  | NumberDeviceClass.WindSpeed => "wind_speed"

/-- The Rust variant identifiers of `NumberDeviceClass`, for contrast with tags. -/
def NumberDeviceClass.variantName : NumberDeviceClass → String
  | NumberDeviceClass.ApparentPower => "ApparentPower"
  | NumberDeviceClass.Aqi => "Aqi"
  | NumberDeviceClass.AtmosphericPressure => "AtmosphericPressure"
  | NumberDeviceClass.Battery => "Battery"
  | NumberDeviceClass.CarbonDioxide => "CarbonDioxide"
  | NumberDeviceClass.CarbonMonoxide => "CarbonMonoxide"
  | NumberDeviceClass.Current => "Current"
  | NumberDeviceClass.DataRate => "DataRate"
  | NumberDeviceClass.DataSize => "DataSize"
  | NumberDeviceClass.Distance => "Distance"
  | NumberDeviceClass.Energy => "Energy"
  | NumberDeviceClass.EnergyStorage => "EnergyStorage"
  | NumberDeviceClass.Frequency => "Frequency"
  | NumberDeviceClass.Gas => "Gas"
  | NumberDeviceClass.Humidity => "Humidity"
  | NumberDeviceClass.Illuminance => "Illuminance"
  | NumberDeviceClass.Irradiance => "Irradiance"
  | NumberDeviceClass.Moisture => "Moisture"
  | NumberDeviceClass.Monetary => "Monetary"
  | NumberDeviceClass.NitrogenDioxide => "NitrogenDioxide"
  | NumberDeviceClass.NitrogenMonoxide => "NitrogenMonoxide"
  | NumberDeviceClass.NitrousOxide => "NitrousOxide"
  | NumberDeviceClass.Ozone => "Ozone"
  | NumberDeviceClass.Ph => "Ph"
  | NumberDeviceClass.Pm1 => "Pm1"
  | NumberDeviceClass.Pm10 => "Pm10"
  | NumberDeviceClass.Pm25 => "Pm25"
  | NumberDeviceClass.PowerFactor => "PowerFactor"
  | NumberDeviceClass.Power => "Power"
  | NumberDeviceClass.Precipitation => "Precipitation"
  | NumberDeviceClass.PrecipitationIntensity => "PrecipitationIntensity"
  | NumberDeviceClass.Pressure => "Pressure"
  | NumberDeviceClass.ReactivePower => "ReactivePower"
  | NumberDeviceClass.SignalStrength => "SignalStrength"
  | NumberDeviceClass.SoundPressure => "SoundPressure"
  | NumberDeviceClass.Speed => "Speed"
  | NumberDeviceClass.SulphurDioxide => "SulphurDioxide"
  | NumberDeviceClass.Temperature => "Temperature"
  | NumberDeviceClass.VolatileOrganicCompounds => "VolatileOrganicCompounds"
  | NumberDeviceClass.Voltage => "Voltage"
  | NumberDeviceClass.Volume => "Volume"
  | NumberDeviceClass.VolumeStorage => "VolumeStorage"
  | NumberDeviceClass.Water => "Water"
  | NumberDeviceClass.Weight => "Weight"
  | NumberDeviceClass.WindSpeed => "WindSpeed"

/-- Modelled from the spec: the unit-of-measurement catalogue (`units::Unit` is
absent from `src/`); a closed enumeration of unit tags, of which only the
percentage unit (wire tag `%`, as asserted by the repository's test) is
exercised by the visible sources. -/
inductive Unit where
  | Percentage : Unit
deriving DecidableEq

/-- Modelled from the spec: the wire tag of a unit; `%` for the percentage unit. -/
def Unit.tag : Unit → String
  | Unit.Percentage => "%"

/-- The `Number` struct of src/mqtt/number.rs (lines 9-90), fields in declaration
order.  `state_topic` and `command_topic` are plain (non-optional) strings;
`min`, `max`, `step` are `f64` in the source, modelled as rationals since no
arithmetic is ever performed on them. -/
structure Number where
  topic_prefix : Option String
  origin : Origin
  device : Device
  entity_category : Option EntityCategory
  icon : Option String
  json_attributes_topic : Option String
  json_attributes_template : Option String
  object_id : Option String
  unique_id : Option String
  availability : Availability
  enabled_by_default : Option Bool
  state_topic : String
  value_template : Option String
  command_topic : String
  command_template : Option String
  optimistic : Option Bool
  retain : Option Bool
  device_class : Option NumberDeviceClass
  name : Option String
  min : Option Rat
  max : Option Rat
  mode : Option DisplayMode
  payload_reset : Option String
  step : Option Rat
  unit_of_measurement : Option Unit

/-- Serde serialization of `Number`, straight from the attributes in
src/mqtt/number.rs: each field under its `rename` key in declaration order;
fields with `skip_serializing_if = "Option::is_none"` are omitted when unset;
the four fields WITHOUT that attribute (`~`, `cmd_tpl`, `opt`, `ret`) are
always emitted, with `None` becoming an explicit `null`; `availability` is
`#[serde(flatten)]`ed into the top level. -/
def Number.serialize (n : Number) : List (String × Json) :=
  nullableField "~" ( Number.topic_prefix n) Json.str
  ++ [("o", Json.obj (Origin.serialize n.origin))]
  ++ [("dev", Json.obj (Device.serialize n.device))]
  ++ optField "ent_cat" n.entity_category EntityCategory.toJson
  ++ optField "ic" n.icon Json.str
  ++ optField "json_attr_t" n.json_attributes_topic Json.str
  ++ optField "json_attr_tpl" n.json_attributes_template Json.str
  ++ optField "obj_id" n.object_id Json.str
  ++ optField "uniq_id" n.unique_id Json.str
  ++ Availability.serialize n.availability
  ++ optField "en" n.enabled_by_default Json.bool
  ++ [("stat_t", Json.str n.state_topic)]
  ++ optField "val_tpl" n.value_template Json.str
  ++ [("cmd_t", Json.str n.command_topic)]
  ++ nullableField "cmd_tpl" n.command_template Json.str
  ++ nullableField "opt" n.optimistic Json.bool
  ++ nullableField "ret" n.retain Json.bool
  ++ optField "dev_cla" n.device_class (fun d => Json.str (NumberDeviceClass.tag d))
  ++ optField "name" n.name Json.str
  ++ optField "min" n.min Json.num
  ++ optField "max" n.max Json.num
  ++ optField "mode" n.mode (fun m => Json.str (DisplayMode.tag m))
  ++ optField "pl_rst" n.payload_reset Json.str
  ++ optField "step" n.step Json.num
  ++ optField "unit_of_meas" n.unit_of_measurement (fun u => Json.str ( Unit.tag u))

/-- The `Cover` struct of src/mqtt/cover.rs (lines 622-796), fields in
declaration order.  `i32` fields are modelled as integers. -/
structure Cover where
  topic_prefix : Option String
  origin : Origin
  device : Device
  availability : Availability
  entity_category : Option EntityCategory
  command_topic : Option String
  device_class : Option String
  enabled_by_default : Option Bool
  encoding : Option String
  icon : Option String
  json_attributes_template : Option String
  json_attributes_topic : Option String
  name : Option String
  object_id : Option String
  optimistic : Option Bool
  payload_close : Option String
  payload_open : Option String
  payload_stop : Option String
  position_closed : Option Int
  position_open : Option Int
  position_template : Option String
  position_topic : Option String
  qos : Option Qos
  retain : Option Bool
  set_position_template : Option String
  set_position_topic : Option String
  state_closed : Option String
  state_closing : Option String
  state_open : Option String
  state_opening : Option String
  state_stopped : Option String
  state_topic : Option String
  tilt_closed_value : Option Int
  tilt_command_template : Option String
  tilt_command_topic : Option String
  tilt_max : Option Int
  tilt_min : Option Int
  tilt_opened_value : Option Int
  tilt_optimistic : Option Bool
  tilt_status_template : Option String
  tilt_status_topic : Option String
  unique_id : Option String
  value_template : Option String

/-- Serde serialization of `Cover`, straight from the attributes in
src/mqtt/cover.rs: every optional field carries
`skip_serializing_if = "Option::is_none"` (omitted when unset), `origin` and
`device` nest under `o` and `dev`, and `availability` is flattened. -/
def Cover.serialize (c : Cover) : List (String × Json) :=
  optField "~" ( Cover.topic_prefix c) Json.str
  ++ [("o", Json.obj (Origin.serialize c.origin))]
  ++ [("dev", Json.obj (Device.serialize c.device))]
  ++ Availability.serialize c.availability
  ++ optField "ent_cat" c.entity_category EntityCategory.toJson
  ++ optField "cmd_t" c.command_topic Json.str
  ++ optField "dev_cla" c.device_class Json.str
  ++ optField "en" c.enabled_by_default Json.bool
  ++ optField "e" c.encoding Json.str
  ++ optField "ic" c.icon Json.str
  ++ optField "json_attr_tpl" c.json_attributes_template Json.str
  ++ optField "json_attr_t" c.json_attributes_topic Json.str
  ++ optField "name" c.name Json.str
  ++ optField "obj_id" c.object_id Json.str
  ++ optField "opt" c.optimistic Json.bool
  ++ optField "pl_cls" c.payload_close Json.str
  ++ optField "pl_open" c.payload_open Json.str
  ++ optField "pl_stop" c.payload_stop Json.str
  ++ optField "pos_clsd" c.position_closed (fun i => Json.num i)
  ++ optField "pos_open" c.position_open (fun i => Json.num i)
  ++ optField "pos_tpl" c.position_template Json.str
  ++ optField "pos_t" c.position_topic Json.str
  ++ optField "qos" c.qos Qos.toJson
  ++ optField "ret" c.retain Json.bool
  ++ optField "set_pos_tpl" c.set_position_template Json.str
  ++ optField "set_pos_t" c.set_position_topic Json.str
  ++ optField "stat_clsd" c.state_closed Json.str
  ++ optField "stat_closing" c.state_closing Json.str
  ++ optField "stat_open" c.state_open Json.str
  ++ optField "stat_opening" c.state_opening Json.str
  ++ optField "stat_stopped" c.state_stopped Json.str
  ++ optField "stat_t" c.state_topic Json.str
  ++ optField "tilt_clsd_val" c.tilt_closed_value (fun i => Json.num i)
  ++ optField "tilt_cmd_tpl" c.tilt_command_template Json.str
  ++ optField "tilt_cmd_t" c.tilt_command_topic Json.str
  ++ optField "tilt_max" c.tilt_max (fun i => Json.num i)
  ++ optField "tilt_min" c.tilt_min (fun i => Json.num i)
  ++ optField "tilt_opnd_val" c.tilt_opened_value (fun i => Json.num i)
  ++ optField "tilt_opt" c.tilt_optimistic Json.bool
  ++ optField "tilt_status_tpl" c.tilt_status_template Json.str
  ++ optField "tilt_status_t" c.tilt_status_topic Json.str
  ++ optField "uniq_id" c.unique_id Json.str
  ++ optField "val_tpl" c.value_template Json.str

/-- Builder method `Cover::topic_prefix` (cover.rs lines 801-804). -/
def Cover.with_topic_prefix (c : Cover) (v : String) : Cover :=
  { c with topic_prefix := some v }

/-- Builder method `Cover::origin` (cover.rs lines 807-810). -/
def Cover.with_origin (c : Cover) (v : Origin) : Cover :=
  { c with origin := v }

/-- Builder method `Cover::device` (cover.rs lines 813-816). -/
def Cover.with_device (c : Cover) (v : Device) : Cover :=
  { c with device := v }

/-- Builder method `Cover::entity_category` (cover.rs lines 819-822). -/
def Cover.with_entity_category (c : Cover) (v : EntityCategory) : Cover :=
  { c with entity_category := some v }

/-- Builder method `Cover::availability` (cover.rs lines 825-828). -/
def Cover.with_availability (c : Cover) (v : Availability) : Cover :=
  { c with availability := v }

/-- Builder method `Cover::command_topic` (cover.rs lines 831-834). -/
def Cover.with_command_topic (c : Cover) (v : String) : Cover :=
  { c with command_topic := some v }

/-- Builder method `Cover::device_class` (cover.rs lines 837-840). -/
def Cover.with_device_class (c : Cover) (v : String) : Cover :=
  { c with device_class := some v }

/-- Builder method `Cover::enabled_by_default` (cover.rs lines 843-846). -/
def Cover.with_enabled_by_default (c : Cover) (v : Bool) : Cover :=
  { c with enabled_by_default := some v }

/-- Builder method `Cover::encoding` (cover.rs lines 849-852). -/
def Cover.with_encoding (c : Cover) (v : String) : Cover :=
  { c with encoding := some v }

/-- Builder method `Cover::icon` (cover.rs lines 855-858). -/
def Cover.with_icon (c : Cover) (v : String) : Cover :=
  { c with icon := some v }

/-- Builder method `Cover::json_attributes_template` (cover.rs lines 861-867). -/
def Cover.with_json_attributes_template (c : Cover) (v : String) : Cover :=
  { c with json_attributes_template := some v }

/-- Builder method `Cover::json_attributes_topic` (cover.rs lines 870-873). -/
def Cover.with_json_attributes_topic (c : Cover) (v : String) : Cover :=
  { c with json_attributes_topic := some v }

/-- Builder method `Cover::name` (cover.rs lines 876-879). -/
def Cover.with_name (c : Cover) (v : String) : Cover :=
  { c with name := some v }

/-- Builder method `Cover::object_id` (cover.rs lines 882-885). -/
def Cover.with_object_id (c : Cover) (v : String) : Cover :=
  { c with object_id := some v }

/-- Builder method `Cover::optimistic` (cover.rs lines 888-891). -/
def Cover.with_optimistic (c : Cover) (v : Bool) : Cover :=
  { c with optimistic := some v }

/-- Builder method `Cover::payload_close` (cover.rs lines 894-897). -/
def Cover.with_payload_close (c : Cover) (v : String) : Cover :=
  { c with payload_close := some v }

/-- Builder method `Cover::payload_open` (cover.rs lines 900-903). -/
def Cover.with_payload_open (c : Cover) (v : String) : Cover :=
  { c with payload_open := some v }

/-- Builder method `Cover::payload_stop` (cover.rs lines 906-909). -/
def Cover.with_payload_stop (c : Cover) (v : String) : Cover :=
  { c with payload_stop := some v }

/-- Builder method `Cover::position_closed` (cover.rs lines 912-915). -/
def Cover.with_position_closed (c : Cover) (v : Int) : Cover :=
  { c with position_closed := some v }

/-- Builder method `Cover::position_open` (cover.rs lines 918-921). -/
def Cover.with_position_open (c : Cover) (v : Int) : Cover :=
  { c with position_open := some v }

/-- Builder method `Cover::position_template` (cover.rs lines 924-927). -/
def Cover.with_position_template (c : Cover) (v : String) : Cover :=
  { c with position_template := some v }

/-- Builder method `Cover::position_topic` (cover.rs lines 930-933). -/
def Cover.with_position_topic (c : Cover) (v : String) : Cover :=
  { c with position_topic := some v }

/-- Builder method `Cover::qos` (cover.rs lines 936-939). -/
def Cover.with_qos (c : Cover) (v : Qos) : Cover :=
  { c with qos := some v }

/-- Builder method `Cover::retain` (cover.rs lines 942-945). -/
def Cover.with_retain (c : Cover) (v : Bool) : Cover :=
  { c with retain := some v }

/-- Builder method `Cover::set_position_template` (cover.rs lines 948-951). -/
def Cover.with_set_position_template (c : Cover) (v : String) : Cover :=
  { c with set_position_template := some v }

/-- Builder method `Cover::set_position_topic` (cover.rs lines 954-957). -/
def Cover.with_set_position_topic (c : Cover) (v : String) : Cover :=
  { c with set_position_topic := some v }

/-- Builder method `Cover::state_closed` (cover.rs lines 960-963). -/
def Cover.with_state_closed (c : Cover) (v : String) : Cover :=
  { c with state_closed := some v }

/-- Builder method `Cover::state_closing` (cover.rs lines 966-969). -/
def Cover.with_state_closing (c : Cover) (v : String) : Cover :=
  { c with state_closing := some v }

/-- Builder method `Cover::state_open` (cover.rs lines 972-975). -/
def Cover.with_state_open (c : Cover) (v : String) : Cover :=
  { c with state_open := some v }

/-- Builder method `Cover::state_opening` (cover.rs lines 978-981). -/
def Cover.with_state_opening (c : Cover) (v : String) : Cover :=
  { c with state_opening := some v }

/-- Builder method `Cover::state_stopped` (cover.rs lines 984-987). -/
def Cover.with_state_stopped (c : Cover) (v : String) : Cover :=
  { c with state_stopped := some v }

/-- Builder method `Cover::state_topic` (cover.rs lines 990-993). -/
def Cover.with_state_topic (c : Cover) (v : String) : Cover :=
  { c with state_topic := some v }

/-- Builder method `Cover::tilt_closed_value` (cover.rs lines 996-999). -/
def Cover.with_tilt_closed_value (c : Cover) (v : Int) : Cover :=
  { c with tilt_closed_value := some v }

/-- Builder method `Cover::tilt_command_template` (cover.rs lines 1002-1005). -/
def Cover.with_tilt_command_template (c : Cover) (v : String) : Cover :=
  { c with tilt_command_template := some v }

/-- Builder method `Cover::tilt_command_topic` (cover.rs lines 1008-1011). -/
def Cover.with_tilt_command_topic (c : Cover) (v : String) : Cover :=
  { c with tilt_command_topic := some v }

/-- Builder method `Cover::tilt_max` (cover.rs lines 1014-1017). -/
def Cover.with_tilt_max (c : Cover) (v : Int) : Cover :=
  { c with tilt_max := some v }

/-- Builder method `Cover::tilt_min` (cover.rs lines 1020-1023). -/
def Cover.with_tilt_min (c : Cover) (v : Int) : Cover :=
  { c with tilt_min := some v }

/-- Builder method `Cover::tilt_opened_value` (cover.rs lines 1026-1029). -/
def Cover.with_tilt_opened_value (c : Cover) (v : Int) : Cover :=
  { c with tilt_opened_value := some v }

/-- Builder method `Cover::tilt_optimistic` (cover.rs lines 1032-1035). -/
def Cover.with_tilt_optimistic (c : Cover) (v : Bool) : Cover :=
  { c with tilt_optimistic := some v }

/-- Builder method `Cover::tilt_status_template` (cover.rs lines 1038-1041). -/
def Cover.with_tilt_status_template (c : Cover) (v : String) : Cover :=
  { c with tilt_status_template := some v }

/-- Builder method `Cover::tilt_status_topic` (cover.rs lines 1044-1047). -/
def Cover.with_tilt_status_topic (c : Cover) (v : String) : Cover :=
  { c with tilt_status_topic := some v }

/-- Builder method `Cover::unique_id` (cover.rs lines 1050-1053). -/
def Cover.with_unique_id (c : Cover) (v : String) : Cover :=
  { c with unique_id := some v }

/-- Builder method `Cover::value_template` (cover.rs lines 1056-1059). -/
def Cover.with_value_template (c : Cover) (v : String) : Cover :=
  { c with value_template := some v }


/-- Rust `Origin::default()`: empty name, no version, no URL. -/
def originDefault : Origin :=
  { name := "", sw_version := none, support_url := none }

/-- Rust `Device::default()`: everything unset / empty. -/
def deviceDefault : Device :=
  { name := none, identifiers := [], connections := [], configuration_url := none,
    manufacturer := none, model := none, suggested_area := none, sw_version := none,
    hw_version := none, via_device := none }

/-- Rust `Availability::default()`: mode `Latest` (the spec default), no entries,
no shortcut, no expiry. -/
def availabilityDefault : Availability :=
  { mode := AvailabilityMode.Latest, entries := [], single_topic_shortcut := none,
    expire_after := none }

/-- `Number::default()` (the struct derives `Default`): every optional field is
`None`, the required topic strings are empty. -/
def numberDefault : Number :=
  { topic_prefix := none, origin := originDefault, device := deviceDefault,
    entity_category := none, icon := none, json_attributes_topic := none,
    json_attributes_template := none, object_id := none, unique_id := none,
    availability := availabilityDefault, enabled_by_default := none,
    state_topic := "", value_template := none, command_topic := "",
    command_template := none, optimistic := none, retain := none,
    device_class := none, name := none, min := none, max := none, mode := none,
    payload_reset := none, step := none, unit_of_measurement := none }

/-- `Cover::default()` (the struct derives `Default`): every optional field is
`None`. -/
def coverDefault : Cover :=
  { topic_prefix := none, origin := originDefault, device := deviceDefault,
    availability := availabilityDefault, entity_category := none,
    command_topic := none, device_class := none, enabled_by_default := none,
    encoding := none, icon := none, json_attributes_template := none,
    json_attributes_topic := none, name := none, object_id := none,
    optimistic := none, payload_close := none, payload_open := none,
    payload_stop := none, position_closed := none, position_open := none,
    position_template := none, position_topic := none, qos := none,
    retain := none, set_position_template := none, set_position_topic := none,
    state_closed := none, state_closing := none, state_open := none,
    state_opening := none, state_stopped := none, state_topic := none,
    tilt_closed_value := none, tilt_command_template := none,
    tilt_command_topic := none, tilt_max := none, tilt_min := none,
    tilt_opened_value := none, tilt_optimistic := none,
    tilt_status_template := none, tilt_status_topic := none, unique_id := none,
    value_template := none }

/-- Modelled from the spec: the Topic Abbreviation Resolver — substring-replace
every occurrence of the single-character placeholder ~ with the prefix string
when one is configured, pass the value through unchanged otherwise.  No such
function exists in the visible sources; it is stated here so the serializer can
be compared against it. -/
def resolveTopic (pre : Option String) (topic : String) : String :=
  match pre with
  | none => topic
  | some p => String.mk (List.flatten (topic.data.map (fun ch => if ch = '~' then p.data else [ch])))

/-- A cover configured exactly as in the spec scenario for topic resolution:
topic-prefix `home/cover` and state topic `~/state`, built with the builder
methods. -/
def coverC2 : Cover :=
  Cover.with_state_topic ( Cover.with_topic_prefix coverDefault "home/cover") "~/state"

/-- The JSON document that the repository test `can_serialize_sensor`
(src/mqtt/number.rs lines 297-331) asserts to be the serialization of its
`Number` value — a value whose availability is
`Availability::single_topic("~/availability").expire_after(60)`.  Transcribed
literally from the `json!` expression in the test. -/
def numberTestExpected : List (String × Json) :=
  [("~", Json.str "topic/prefix"),
   ("o", Json.obj [("name", Json.str "application name")]),
   ("dev", Json.obj [("name", Json.str "device name")]),
   ("obj_id", Json.str "object-id"),
   ("uniq_id", Json.str "unique-id"),
   ("avty_mode", Json.str "all"),
   ("avty", Json.arr [Json.obj [("t", Json.str "~/availability")]]),
   ("en", Json.bool true),
   ("stat_t", Json.str "~/state"),
   ("val_tpl", Json.str "\x7b\x7b value \x7d\x7d"),
   ("cmd_t", Json.str "~/command"),
   ("cmd_tpl", Json.str "\x7b\x7b command_value \x7d\x7d"),
   ("opt", Json.bool false),
   ("ret", Json.bool true),
   ("dev_cla", Json.str "battery"),
   ("exp_aft", Json.num 60),
   ("name", Json.str "number name"),
   ("mode", Json.str "slider"),
   ("min", Json.num 1),
   ("max", Json.num 100),
   ("step", Json.num (1/50 : Rat)),
   ("pl_rst", Json.str "NaN"),
   ("unit_of_meas", Json.str "%")]

/-- A sample availability entry used to exercise the construction conflict. -/
def entrySample : AvailabilityEntry :=
  { topic := "home/cover/avail", payload_available := "online",
    payload_not_available := "offline", value_template := none }

/-- A `Number` with a display mode and a device class set, used to instantiate
the enum-tag theorem. -/
def numberC7 : Number :=
  { numberDefault with mode := some DisplayMode.Slider,
                       device_class := some NumberDeviceClass.Battery }

/-- A `Number` with a one-topic availability, used to instantiate the
flattening theorem. -/
def numberAvail : Number :=
  { numberDefault with availability := Availability.single_topic "a" }

/-- The compact keys of `Cover` in struct declaration order (the four
availability keys stand at the position of the flattened `availability` field). -/
def coverDeclKeys : List String :=
  ["~", "o", "dev", "avty_t", "avty_mode", "avty", "exp_aft", "ent_cat", "cmd_t",
   "dev_cla", "en", "e", "ic", "json_attr_tpl", "json_attr_t", "name", "obj_id",
   "opt", "pl_cls", "pl_open", "pl_stop", "pos_clsd", "pos_open", "pos_tpl",
   "pos_t", "qos", "ret", "set_pos_tpl", "set_pos_t", "stat_clsd", "stat_closing",
   "stat_open", "stat_opening", "stat_stopped", "stat_t", "tilt_clsd_val",
   "tilt_cmd_tpl", "tilt_cmd_t", "tilt_max", "tilt_min", "tilt_opnd_val",
   "tilt_opt", "tilt_status_tpl", "tilt_status_t", "uniq_id", "val_tpl"]

/-- Two covers agree on every field except the one with declaration index `i`
(0 = topic_prefix, 1 = origin, ..., 42 = value_template).  Used to state that a
builder method touches exactly one field. -/
def Cover.agreeExcept (i : Nat) (a b : Cover) : Prop :=
  (i ≠ 0 → Cover.topic_prefix a = Cover.topic_prefix b)
  ∧ (i ≠ 1 → a.origin = b.origin)
  ∧ (i ≠ 2 → a.device = b.device)
  ∧ (i ≠ 3 → a.availability = b.availability)
  ∧ (i ≠ 4 → a.entity_category = b.entity_category)
  ∧ (i ≠ 5 → a.command_topic = b.command_topic)
  ∧ (i ≠ 6 → a.device_class = b.device_class)
  ∧ (i ≠ 7 → a.enabled_by_default = b.enabled_by_default)
  ∧ (i ≠ 8 → a.encoding = b.encoding)
  ∧ (i ≠ 9 → a.icon = b.icon)
  ∧ (i ≠ 10 → a.json_attributes_template = b.json_attributes_template)
  ∧ (i ≠ 11 → a.json_attributes_topic = b.json_attributes_topic)
  ∧ (i ≠ 12 → a.name = b.name)
  ∧ (i ≠ 13 → a.object_id = b.object_id)
  ∧ (i ≠ 14 → a.optimistic = b.optimistic)
  ∧ (i ≠ 15 → a.payload_close = b.payload_close)
  ∧ (i ≠ 16 → a.payload_open = b.payload_open)
  ∧ (i ≠ 17 → a.payload_stop = b.payload_stop)
  ∧ (i ≠ 18 → a.position_closed = b.position_closed)
  ∧ (i ≠ 19 → a.position_open = b.position_open)
  ∧ (i ≠ 20 → a.position_template = b.position_template)
  ∧ (i ≠ 21 → a.position_topic = b.position_topic)
  ∧ (i ≠ 22 → a.qos = b.qos)
  ∧ (i ≠ 23 → a.retain = b.retain)
  ∧ (i ≠ 24 → a.set_position_template = b.set_position_template)
  ∧ (i ≠ 25 → a.set_position_topic = b.set_position_topic)
  ∧ (i ≠ 26 → a.state_closed = b.state_closed)
  ∧ (i ≠ 27 → a.state_closing = b.state_closing)
  ∧ (i ≠ 28 → a.state_open = b.state_open)
  ∧ (i ≠ 29 → a.state_opening = b.state_opening)
  ∧ (i ≠ 30 → a.state_stopped = b.state_stopped)
  ∧ (i ≠ 31 → a.state_topic = b.state_topic)
  ∧ (i ≠ 32 → a.tilt_closed_value = b.tilt_closed_value)
  ∧ (i ≠ 33 → a.tilt_command_template = b.tilt_command_template)
  ∧ (i ≠ 34 → a.tilt_command_topic = b.tilt_command_topic)
  ∧ (i ≠ 35 → a.tilt_max = b.tilt_max)
  ∧ (i ≠ 36 → a.tilt_min = b.tilt_min)
  ∧ (i ≠ 37 → a.tilt_opened_value = b.tilt_opened_value)
  ∧ (i ≠ 38 → a.tilt_optimistic = b.tilt_optimistic)
  ∧ (i ≠ 39 → a.tilt_status_template = b.tilt_status_template)
  ∧ (i ≠ 40 → a.tilt_status_topic = b.tilt_status_topic)
  ∧ (i ≠ 41 → a.unique_id = b.unique_id)
  ∧ (i ≠ 42 → a.value_template = b.value_template)

/-- Peeling a key-free prefix off a lookup. -/
theorem lookupKey_append_none {k : String} {l1 l2 : List (String × Json)}
    (h : lookupKey k l1 = none) : lookupKey k (l1 ++ l2) = lookupKey k l2 := by
  induction l1 with
  | nil => rfl
  | cons p rest ih =>
      by_cases hk : k = p.fst
      · simp [lookupKey, hk] at h
      · simp only [List.cons_append, lookupKey, if_neg hk] at h ⊢
        exact ih h

/-- An omitted-when-unset field under another key contributes nothing to a lookup. -/
theorem lookupKey_optField_ne {α : Type} {k k2 : String} {v : Option α} {f : α → Json}
    (h : k ≠ k2) : lookupKey k (optField k2 v f) = none := by
  cases v
  · rfl
  · simp [optField, lookupKey, h]

/-- An always-emitted field under another key contributes nothing to a lookup. -/
theorem lookupKey_nullableField_ne {α : Type} {k k2 : String} {v : Option α} {f : α → Json}
    (h : k ≠ k2) : lookupKey k (nullableField k2 v f) = none := by
  simp [nullableField, lookupKey, h]

/-- A singleton under another key contributes nothing to a lookup. -/
theorem lookupKey_single_ne {k k2 : String} {j : Json} (h : k ≠ k2) :
    lookupKey k [(k2, j)] = none := by
  simp [lookupKey, h]

/-- The flattened availability block contributes nothing to a lookup for a key
outside its four keys. -/
theorem lookupKey_avail_ne {k : String} (a : Availability)
    (h1 : k ≠ "avty_t") (h2 : k ≠ "avty_mode") (h3 : k ≠ "avty") (h4 : k ≠ "exp_aft") :
    lookupKey k (Availability.serialize a) = none := by
  have hmode : lookupKey k (Availability.modeField a.mode) = none := by
    unfold Availability.modeField
    split
    · rfl
    · exact lookupKey_single_ne h2
  have hent : lookupKey k (Availability.entriesField a.entries) = none := by
    unfold Availability.entriesField
    rcases a.entries with _ | ⟨e, es⟩
    · rfl
    · exact lookupKey_single_ne h3
  unfold Availability.serialize
  simp only [List.append_assoc]
  rw [lookupKey_append_none (lookupKey_optField_ne h1),
      lookupKey_append_none hmode, lookupKey_append_none hent]
  exact lookupKey_optField_ne h4

/-- A successful lookup comes from a member of the list. -/
theorem mem_of_lookupKey {k : String} {j : Json} : ∀ {l : List (String × Json)},
    lookupKey k l = some j → (k, j) ∈ l := by
  intro l
  induction l with
  | nil => intro h; exact absurd h (by simp [lookupKey])
  | cons p rest ih =>
      intro h
      by_cases hk : k = p.fst
      · have hj : j = p.snd := by
          have := h
          simp only [lookupKey, if_pos hk] at this
          exact (Option.some.inj this).symm
        exact List.mem_cons.mpr (Or.inl (Prod.ext hk hj))
      · simp only [lookupKey, if_neg hk] at h
        exact List.mem_cons_of_mem _ (ih h)

/-- Members of an omitted-when-unset field never carry a `null` value, provided
the rendering function never produces one. -/
theorem snd_ne_null_of_mem_optField {α : Type} {k : String} {v : Option α}
    {f : α → Json} {p : String × Json} (hf : ∀ x, f x ≠ Json.null)
    (hp : p ∈ optField k v f) : p.snd ≠ Json.null := by
  cases v
  · simp [optField] at hp
  · simp only [optField, List.mem_singleton] at hp
    subst hp
    exact hf _

/-- No pair of the flattened availability block carries a `null` value. -/
theorem avail_serialize_no_null (a : Availability) (p : String × Json)
    (hp : p ∈ Availability.serialize a) : p.snd ≠ Json.null := by
  unfold Availability.serialize at hp
  simp only [List.append_assoc, List.mem_append] at hp
  rcases hp with hp | hp | hp | hp
  · exact snd_ne_null_of_mem_optField (fun x => by simp) hp
  · unfold Availability.modeField at hp
    split at hp
    · simp at hp
    · simp only [List.mem_singleton] at hp
      subst hp
      simp
  · unfold Availability.entriesField at hp
    rcases ha : a.entries with _ | ⟨e, es⟩ <;> rw [ha] at hp
    · simp at hp
    · simp only [List.mem_singleton] at hp
      subst hp
      simp
  · exact snd_ne_null_of_mem_optField (fun x => by simp) hp

/-- Skipping a pair with a different key. -/
theorem lookupKey_cons_ne {k k2 : String} {j : Json} {rest : List (String × Json)}
    (h : k ≠ k2) : lookupKey k ((k2, j) :: rest) = lookupKey k rest := by
  simp [lookupKey, h]

/-- Hitting the pair with the sought key. -/
theorem lookupKey_cons_hit (k : String) (j : Json) (rest : List (String × Json)) :
    lookupKey k ((k, j) :: rest) = some j := by
  simp [lookupKey]

/-- A set omitted-when-unset field reduces to its singleton. -/
theorem optField_some {α : Type} (k : String) (x : α) (f : α → Json) :
    optField k (some x) f = [(k, f x)] := rfl

/-- Keys of an append are covered chunkwise. -/
theorem keys_sublist_append {l1 l2 : List (String × Json)} {k1 k2 : List String}
    (h1 : List.Sublist (l1.map Prod.fst) k1) (h2 : List.Sublist (l2.map Prod.fst) k2) :
    List.Sublist ((l1 ++ l2).map Prod.fst) (k1 ++ k2) := by
  rw [List.map_append]
  exact List.Sublist.append h1 h2

/-- An omitted-when-unset field contributes at most its own key. -/
theorem optField_keys {α : Type} (k : String) (v : Option α) (f : α → Json) :
    List.Sublist ((optField k v f).map Prod.fst) [k] := by
  cases v
  · exact List.nil_sublist _
  · exact List.Sublist.refl _

/-- The mode segment contributes at most the `avty_mode` key. -/
theorem modeField_keys (m : AvailabilityMode) :
    List.Sublist ((Availability.modeField m).map Prod.fst) ["avty_mode"] := by
  unfold Availability.modeField
  split
  · exact List.nil_sublist _
  · exact List.Sublist.refl _

/-- The entries segment contributes at most the `avty` key. -/
theorem entriesField_keys (es : List AvailabilityEntry) :
    List.Sublist ((Availability.entriesField es).map Prod.fst) ["avty"] := by
  unfold Availability.entriesField
  rcases es with _ | ⟨e, rest⟩
  · exact List.nil_sublist _
  · exact List.Sublist.refl _

/-- The flattened availability block contributes at most its four keys, in order. -/
theorem avail_keys (a : Availability) :
    List.Sublist ((Availability.serialize a).map Prod.fst)
      ["avty_t", "avty_mode", "avty", "exp_aft"] := by
  unfold Availability.serialize
  show List.Sublist _ (["avty_t"] ++ ["avty_mode"] ++ ["avty"] ++ ["exp_aft"])
  exact keys_sublist_append (keys_sublist_append (keys_sublist_append
    (optField_keys _ _ _) (modeField_keys _)) (entriesField_keys _)) (optField_keys _ _ _)

/-- The required state topic is always present under `stat_t`. -/
theorem number_stat_t_key (n : Number) :
    lookupKey "stat_t" ( Number.serialize n) = some (Json.str n.state_topic) := by
  unfold Number.serialize
  simp only [List.append_assoc]
  simp [lookupKey_append_none, lookupKey_optField_ne, lookupKey_cons_ne,
        lookupKey_nullableField_ne, lookupKey_single_ne, lookupKey_avail_ne, lookupKey_cons_hit]

/-- The required command topic is always present under `cmd_t`. -/
theorem number_cmd_t_key (n : Number) :
    lookupKey "cmd_t" ( Number.serialize n) = some (Json.str n.command_topic) := by
  unfold Number.serialize
  simp only [List.append_assoc]
  simp [lookupKey_append_none, lookupKey_optField_ne, lookupKey_cons_ne,
        lookupKey_nullableField_ne, lookupKey_single_ne, lookupKey_avail_ne, lookupKey_cons_hit]

/-- A rendered string is never `null`. -/
theorem str_ne_null (s : String) : Json.str s ≠ Json.null := by simp

/-- A rendered boolean is never `null`. -/
theorem bool_ne_null (b : Bool) : Json.bool b ≠ Json.null := by simp

/-- A rendered number is never `null`. -/
theorem num_ne_null (q : Rat) : Json.num q ≠ Json.null := by simp

/-- A rendered entity category is never `null`. -/
theorem entityCategory_ne_null (x : EntityCategory) : EntityCategory.toJson x ≠ Json.null := by
  cases x <;> simp [EntityCategory.toJson]

/-- A rendered QoS level is never `null`. -/
theorem qos_ne_null (x : Qos) : Qos.toJson x ≠ Json.null := by
  cases x <;> simp [Qos.toJson]

/-- The keys of a serialized Cover follow struct declaration order. -/
theorem cover_keys (c : Cover) :
    List.Sublist ((Cover.serialize c).map Prod.fst) coverDeclKeys := by
  unfold Cover.serialize coverDeclKeys
  show List.Sublist _ (["~"] ++ ["o"] ++ ["dev"] ++ ["avty_t", "avty_mode", "avty", "exp_aft"]
    ++ ["ent_cat"] ++ ["cmd_t"] ++ ["dev_cla"] ++ ["en"] ++ ["e"] ++ ["ic"]
    ++ ["json_attr_tpl"] ++ ["json_attr_t"] ++ ["name"] ++ ["obj_id"] ++ ["opt"]
    ++ ["pl_cls"] ++ ["pl_open"] ++ ["pl_stop"] ++ ["pos_clsd"] ++ ["pos_open"]
    ++ ["pos_tpl"] ++ ["pos_t"] ++ ["qos"] ++ ["ret"] ++ ["set_pos_tpl"]
    ++ ["set_pos_t"] ++ ["stat_clsd"] ++ ["stat_closing"] ++ ["stat_open"]
    ++ ["stat_opening"] ++ ["stat_stopped"] ++ ["stat_t"] ++ ["tilt_clsd_val"]
    ++ ["tilt_cmd_tpl"] ++ ["tilt_cmd_t"] ++ ["tilt_max"] ++ ["tilt_min"]
    ++ ["tilt_opnd_val"] ++ ["tilt_opt"] ++ ["tilt_status_tpl"] ++ ["tilt_status_t"]
    ++ ["uniq_id"] ++ ["val_tpl"])
  repeat refine keys_sublist_append ?_ (optField_keys _ _ _)
  refine keys_sublist_append ?_ (avail_keys _)
  refine keys_sublist_append ?_ (List.Sublist.refl _)
  exact keys_sublist_append (optField_keys _ _ _) (List.Sublist.refl _)

/-- A serialized Cover never maps any key to an explicit `null`: every optional
field carries the skip attribute and every rendering produces a non-null value. -/
theorem cover_serialize_no_null (c : Cover) (p : String × Json)
    (hp : p ∈ Cover.serialize c) : p.snd ≠ Json.null := by
  unfold Cover.serialize at hp
  simp only [List.append_assoc, List.mem_append] at hp
  rcases hp with hp | hp | hp | hp | hp | hp | hp | hp | hp | hp | hp | hp | hp | hp | hp | hp | hp | hp | hp | hp | hp | hp | hp | hp | hp | hp | hp | hp | hp | hp | hp | hp | hp | hp | hp | hp | hp | hp | hp | hp | hp | hp | hp
  all_goals first
    | exact snd_ne_null_of_mem_optField (fun x => str_ne_null _) hp
    | exact snd_ne_null_of_mem_optField (fun x => bool_ne_null _) hp
    | exact snd_ne_null_of_mem_optField (fun x => num_ne_null _) hp
    | exact snd_ne_null_of_mem_optField entityCategory_ne_null hp
    | exact snd_ne_null_of_mem_optField qos_ne_null hp
    | exact avail_serialize_no_null _ _ hp
    | (simp only [List.mem_singleton] at hp; subst hp; simp)

/-- In a serialized Number, an explicit `null` value can occur only under the
four keys whose fields lack the skip attribute: `~`, `cmd_tpl`, `opt`, `ret`. -/
theorem number_serialize_null_keys (n : Number) (p : String × Json)
    (hp : p ∈ Number.serialize n) (hnull : p.snd = Json.null) :
    p.fst = "~" ∨ p.fst = "cmd_tpl" ∨ p.fst = "opt" ∨ p.fst = "ret" := by
  unfold Number.serialize at hp
  simp only [List.append_assoc, List.mem_append] at hp
  rcases hp with hp | hp | hp | hp | hp | hp | hp | hp | hp | hp | hp | hp | hp | hp | hp | hp | hp | hp | hp | hp | hp | hp | hp | hp | hp
  all_goals first
    | exact absurd hnull (snd_ne_null_of_mem_optField (fun x => str_ne_null _) hp)
    | exact absurd hnull (snd_ne_null_of_mem_optField (fun x => bool_ne_null _) hp)
    | exact absurd hnull (snd_ne_null_of_mem_optField (fun x => num_ne_null _) hp)
    | exact absurd hnull (snd_ne_null_of_mem_optField entityCategory_ne_null hp)
    | exact absurd hnull (avail_serialize_no_null _ _ hp)
    | (simp only [List.mem_singleton] at hp; subst hp; simp at hnull)
    | (simp only [nullableField, List.mem_singleton] at hp; subst hp; simp)

/-- Builder frame property: `Cover::topic_prefix` sets only its own field. -/
theorem frame_with_topic_prefix : ∀ (c : Cover) (v : String),
     Cover.topic_prefix ( Cover.with_topic_prefix c v) = some v ∧ Cover.agreeExcept 0 ( Cover.with_topic_prefix c v) c := by
  intro c v
  exact ⟨rfl, by simp [Cover.agreeExcept, Cover.with_topic_prefix]⟩

/-- Builder frame property: `Cover::origin` sets only its own field. -/
theorem frame_with_origin : ∀ (c : Cover) (v : Origin),
    (Cover.with_origin c v).origin = v ∧ Cover.agreeExcept 1 (Cover.with_origin c v) c := by
  intro c v
  exact ⟨rfl, by simp [Cover.agreeExcept, Cover.with_origin]⟩

/-- Builder frame property: `Cover::device` sets only its own field. -/
theorem frame_with_device : ∀ (c : Cover) (v : Device),
    (Cover.with_device c v).device = v ∧ Cover.agreeExcept 2 (Cover.with_device c v) c := by
  intro c v
  exact ⟨rfl, by simp [Cover.agreeExcept, Cover.with_device]⟩

/-- Builder frame property: `Cover::availability` sets only its own field. -/
theorem frame_with_availability : ∀ (c : Cover) (v : Availability),
    (Cover.with_availability c v).availability = v ∧ Cover.agreeExcept 3 (Cover.with_availability c v) c := by
  intro c v
  exact ⟨rfl, by simp [Cover.agreeExcept, Cover.with_availability]⟩

/-- Builder frame property: `Cover::entity_category` sets only its own field. -/
theorem frame_with_entity_category : ∀ (c : Cover) (v : EntityCategory),
    (Cover.with_entity_category c v).entity_category = some v ∧ Cover.agreeExcept 4 (Cover.with_entity_category c v) c := by
  intro c v
  exact ⟨rfl, by simp [Cover.agreeExcept, Cover.with_entity_category]⟩

/-- Builder frame property: `Cover::command_topic` sets only its own field. -/
theorem frame_with_command_topic : ∀ (c : Cover) (v : String),
    (Cover.with_command_topic c v).command_topic = some v ∧ Cover.agreeExcept 5 (Cover.with_command_topic c v) c := by
  intro c v
  exact ⟨rfl, by simp [Cover.agreeExcept, Cover.with_command_topic]⟩

/-- Builder frame property: `Cover::device_class` sets only its own field. -/
theorem frame_with_device_class : ∀ (c : Cover) (v : String),
    (Cover.with_device_class c v).device_class = some v ∧ Cover.agreeExcept 6 (Cover.with_device_class c v) c := by
  intro c v
  exact ⟨rfl, by simp [Cover.agreeExcept, Cover.with_device_class]⟩

/-- Builder frame property: `Cover::enabled_by_default` sets only its own field. -/
theorem frame_with_enabled_by_default : ∀ (c : Cover) (v : Bool),
    (Cover.with_enabled_by_default c v).enabled_by_default = some v ∧ Cover.agreeExcept 7 (Cover.with_enabled_by_default c v) c := by
  intro c v
  exact ⟨rfl, by simp [Cover.agreeExcept, Cover.with_enabled_by_default]⟩

/-- Builder frame property: `Cover::encoding` sets only its own field. -/
theorem frame_with_encoding : ∀ (c : Cover) (v : String),
    (Cover.with_encoding c v).encoding = some v ∧ Cover.agreeExcept 8 (Cover.with_encoding c v) c := by
  intro c v
  exact ⟨rfl, by simp [Cover.agreeExcept, Cover.with_encoding]⟩

/-- Builder frame property: `Cover::icon` sets only its own field. -/
theorem frame_with_icon : ∀ (c : Cover) (v : String),
    (Cover.with_icon c v).icon = some v ∧ Cover.agreeExcept 9 (Cover.with_icon c v) c := by
  intro c v
  exact ⟨rfl, by simp [Cover.agreeExcept, Cover.with_icon]⟩

/-- Builder frame property: `Cover::json_attributes_template` sets only its own field. -/
theorem frame_with_json_attributes_template : ∀ (c : Cover) (v : String),
    (Cover.with_json_attributes_template c v).json_attributes_template = some v ∧ Cover.agreeExcept 10 (Cover.with_json_attributes_template c v) c := by
  intro c v
  exact ⟨rfl, by simp [Cover.agreeExcept, Cover.with_json_attributes_template]⟩

/-- Builder frame property: `Cover::json_attributes_topic` sets only its own field. -/
theorem frame_with_json_attributes_topic : ∀ (c : Cover) (v : String),
    (Cover.with_json_attributes_topic c v).json_attributes_topic = some v ∧ Cover.agreeExcept 11 (Cover.with_json_attributes_topic c v) c := by
  intro c v
  exact ⟨rfl, by simp [Cover.agreeExcept, Cover.with_json_attributes_topic]⟩

/-- Builder frame property: `Cover::name` sets only its own field. -/
theorem frame_with_name : ∀ (c : Cover) (v : String),
    (Cover.with_name c v).name = some v ∧ Cover.agreeExcept 12 (Cover.with_name c v) c := by
  intro c v
  exact ⟨rfl, by simp [Cover.agreeExcept, Cover.with_name]⟩

/-- Builder frame property: `Cover::object_id` sets only its own field. -/
theorem frame_with_object_id : ∀ (c : Cover) (v : String),
    (Cover.with_object_id c v).object_id = some v ∧ Cover.agreeExcept 13 (Cover.with_object_id c v) c := by
  intro c v
  exact ⟨rfl, by simp [Cover.agreeExcept, Cover.with_object_id]⟩

/-- Builder frame property: `Cover::optimistic` sets only its own field. -/
theorem frame_with_optimistic : ∀ (c : Cover) (v : Bool),
    (Cover.with_optimistic c v).optimistic = some v ∧ Cover.agreeExcept 14 (Cover.with_optimistic c v) c := by
  intro c v
  exact ⟨rfl, by simp [Cover.agreeExcept, Cover.with_optimistic]⟩

/-- Builder frame property: `Cover::payload_close` sets only its own field. -/
theorem frame_with_payload_close : ∀ (c : Cover) (v : String),
    (Cover.with_payload_close c v).payload_close = some v ∧ Cover.agreeExcept 15 (Cover.with_payload_close c v) c := by
  intro c v
  exact ⟨rfl, by simp [Cover.agreeExcept, Cover.with_payload_close]⟩

/-- Builder frame property: `Cover::payload_open` sets only its own field. -/
theorem frame_with_payload_open : ∀ (c : Cover) (v : String),
    (Cover.with_payload_open c v).payload_open = some v ∧ Cover.agreeExcept 16 (Cover.with_payload_open c v) c := by
  intro c v
  exact ⟨rfl, by simp [Cover.agreeExcept, Cover.with_payload_open]⟩

/-- Builder frame property: `Cover::payload_stop` sets only its own field. -/
theorem frame_with_payload_stop : ∀ (c : Cover) (v : String),
    (Cover.with_payload_stop c v).payload_stop = some v ∧ Cover.agreeExcept 17 (Cover.with_payload_stop c v) c := by
  intro c v
  exact ⟨rfl, by simp [Cover.agreeExcept, Cover.with_payload_stop]⟩

/-- Builder frame property: `Cover::position_closed` sets only its own field. -/
theorem frame_with_position_closed : ∀ (c : Cover) (v : Int),
    (Cover.with_position_closed c v).position_closed = some v ∧ Cover.agreeExcept 18 (Cover.with_position_closed c v) c := by
  intro c v
  exact ⟨rfl, by simp [Cover.agreeExcept, Cover.with_position_closed]⟩

/-- Builder frame property: `Cover::position_open` sets only its own field. -/
theorem frame_with_position_open : ∀ (c : Cover) (v : Int),
    (Cover.with_position_open c v).position_open = some v ∧ Cover.agreeExcept 19 (Cover.with_position_open c v) c := by
  intro c v
  exact ⟨rfl, by simp [Cover.agreeExcept, Cover.with_position_open]⟩

/-- Builder frame property: `Cover::position_template` sets only its own field. -/
theorem frame_with_position_template : ∀ (c : Cover) (v : String),
    (Cover.with_position_template c v).position_template = some v ∧ Cover.agreeExcept 20 (Cover.with_position_template c v) c := by
  intro c v
  exact ⟨rfl, by simp [Cover.agreeExcept, Cover.with_position_template]⟩

/-- Builder frame property: `Cover::position_topic` sets only its own field. -/
theorem frame_with_position_topic : ∀ (c : Cover) (v : String),
    (Cover.with_position_topic c v).position_topic = some v ∧ Cover.agreeExcept 21 (Cover.with_position_topic c v) c := by
  intro c v
  exact ⟨rfl, by simp [Cover.agreeExcept, Cover.with_position_topic]⟩

/-- Builder frame property: `Cover::qos` sets only its own field. -/
theorem frame_with_qos : ∀ (c : Cover) (v : Qos),
    (Cover.with_qos c v).qos = some v ∧ Cover.agreeExcept 22 (Cover.with_qos c v) c := by
  intro c v
  exact ⟨rfl, by simp [Cover.agreeExcept, Cover.with_qos]⟩

/-- Builder frame property: `Cover::retain` sets only its own field. -/
theorem frame_with_retain : ∀ (c : Cover) (v : Bool),
    (Cover.with_retain c v).retain = some v ∧ Cover.agreeExcept 23 (Cover.with_retain c v) c := by
  intro c v
  exact ⟨rfl, by simp [Cover.agreeExcept, Cover.with_retain]⟩

/-- Builder frame property: `Cover::set_position_template` sets only its own field. -/
theorem frame_with_set_position_template : ∀ (c : Cover) (v : String),
    (Cover.with_set_position_template c v).set_position_template = some v ∧ Cover.agreeExcept 24 (Cover.with_set_position_template c v) c := by
  intro c v
  exact ⟨rfl, by simp [Cover.agreeExcept, Cover.with_set_position_template]⟩

/-- Builder frame property: `Cover::set_position_topic` sets only its own field. -/
theorem frame_with_set_position_topic : ∀ (c : Cover) (v : String),
    (Cover.with_set_position_topic c v).set_position_topic = some v ∧ Cover.agreeExcept 25 (Cover.with_set_position_topic c v) c := by
  intro c v
  exact ⟨rfl, by simp [Cover.agreeExcept, Cover.with_set_position_topic]⟩

/-- Builder frame property: `Cover::state_closed` sets only its own field. -/
theorem frame_with_state_closed : ∀ (c : Cover) (v : String),
    (Cover.with_state_closed c v).state_closed = some v ∧ Cover.agreeExcept 26 (Cover.with_state_closed c v) c := by
  intro c v
  exact ⟨rfl, by simp [Cover.agreeExcept, Cover.with_state_closed]⟩

/-- Builder frame property: `Cover::state_closing` sets only its own field. -/
theorem frame_with_state_closing : ∀ (c : Cover) (v : String),
    (Cover.with_state_closing c v).state_closing = some v ∧ Cover.agreeExcept 27 (Cover.with_state_closing c v) c := by
  intro c v
  exact ⟨rfl, by simp [Cover.agreeExcept, Cover.with_state_closing]⟩

/-- Builder frame property: `Cover::state_open` sets only its own field. -/
theorem frame_with_state_open : ∀ (c : Cover) (v : String),
    (Cover.with_state_open c v).state_open = some v ∧ Cover.agreeExcept 28 (Cover.with_state_open c v) c := by
  intro c v
  exact ⟨rfl, by simp [Cover.agreeExcept, Cover.with_state_open]⟩

/-- Builder frame property: `Cover::state_opening` sets only its own field. -/
theorem frame_with_state_opening : ∀ (c : Cover) (v : String),
    (Cover.with_state_opening c v).state_opening = some v ∧ Cover.agreeExcept 29 (Cover.with_state_opening c v) c := by
  intro c v
  exact ⟨rfl, by simp [Cover.agreeExcept, Cover.with_state_opening]⟩

/-- Builder frame property: `Cover::state_stopped` sets only its own field. -/
theorem frame_with_state_stopped : ∀ (c : Cover) (v : String),
    (Cover.with_state_stopped c v).state_stopped = some v ∧ Cover.agreeExcept 30 (Cover.with_state_stopped c v) c := by
  intro c v
  exact ⟨rfl, by simp [Cover.agreeExcept, Cover.with_state_stopped]⟩

/-- Builder frame property: `Cover::state_topic` sets only its own field. -/
theorem frame_with_state_topic : ∀ (c : Cover) (v : String),
    (Cover.with_state_topic c v).state_topic = some v ∧ Cover.agreeExcept 31 (Cover.with_state_topic c v) c := by
  intro c v
  exact ⟨rfl, by simp [Cover.agreeExcept, Cover.with_state_topic]⟩

/-- Builder frame property: `Cover::tilt_closed_value` sets only its own field. -/
theorem frame_with_tilt_closed_value : ∀ (c : Cover) (v : Int),
    (Cover.with_tilt_closed_value c v).tilt_closed_value = some v ∧ Cover.agreeExcept 32 (Cover.with_tilt_closed_value c v) c := by
  intro c v
  exact ⟨rfl, by simp [Cover.agreeExcept, Cover.with_tilt_closed_value]⟩

/-- Builder frame property: `Cover::tilt_command_template` sets only its own field. -/
theorem frame_with_tilt_command_template : ∀ (c : Cover) (v : String),
    (Cover.with_tilt_command_template c v).tilt_command_template = some v ∧ Cover.agreeExcept 33 (Cover.with_tilt_command_template c v) c := by
  intro c v
  exact ⟨rfl, by simp [Cover.agreeExcept, Cover.with_tilt_command_template]⟩

/-- Builder frame property: `Cover::tilt_command_topic` sets only its own field. -/
theorem frame_with_tilt_command_topic : ∀ (c : Cover) (v : String),
    (Cover.with_tilt_command_topic c v).tilt_command_topic = some v ∧ Cover.agreeExcept 34 (Cover.with_tilt_command_topic c v) c := by
  intro c v
  exact ⟨rfl, by simp [Cover.agreeExcept, Cover.with_tilt_command_topic]⟩

/-- Builder frame property: `Cover::tilt_max` sets only its own field. -/
theorem frame_with_tilt_max : ∀ (c : Cover) (v : Int),
    (Cover.with_tilt_max c v).tilt_max = some v ∧ Cover.agreeExcept 35 (Cover.with_tilt_max c v) c := by
  intro c v
  exact ⟨rfl, by simp [Cover.agreeExcept, Cover.with_tilt_max]⟩

/-- Builder frame property: `Cover::tilt_min` sets only its own field. -/
theorem frame_with_tilt_min : ∀ (c : Cover) (v : Int),
    (Cover.with_tilt_min c v).tilt_min = some v ∧ Cover.agreeExcept 36 (Cover.with_tilt_min c v) c := by
  intro c v
  exact ⟨rfl, by simp [Cover.agreeExcept, Cover.with_tilt_min]⟩

/-- Builder frame property: `Cover::tilt_opened_value` sets only its own field. -/
theorem frame_with_tilt_opened_value : ∀ (c : Cover) (v : Int),
    (Cover.with_tilt_opened_value c v).tilt_opened_value = some v ∧ Cover.agreeExcept 37 (Cover.with_tilt_opened_value c v) c := by
  intro c v
  exact ⟨rfl, by simp [Cover.agreeExcept, Cover.with_tilt_opened_value]⟩

/-- Builder frame property: `Cover::tilt_optimistic` sets only its own field. -/
theorem frame_with_tilt_optimistic : ∀ (c : Cover) (v : Bool),
    (Cover.with_tilt_optimistic c v).tilt_optimistic = some v ∧ Cover.agreeExcept 38 (Cover.with_tilt_optimistic c v) c := by
  intro c v
  exact ⟨rfl, by simp [Cover.agreeExcept, Cover.with_tilt_optimistic]⟩

/-- Builder frame property: `Cover::tilt_status_template` sets only its own field. -/
theorem frame_with_tilt_status_template : ∀ (c : Cover) (v : String),
    (Cover.with_tilt_status_template c v).tilt_status_template = some v ∧ Cover.agreeExcept 39 (Cover.with_tilt_status_template c v) c := by
  intro c v
  exact ⟨rfl, by simp [Cover.agreeExcept, Cover.with_tilt_status_template]⟩

/-- Builder frame property: `Cover::tilt_status_topic` sets only its own field. -/
theorem frame_with_tilt_status_topic : ∀ (c : Cover) (v : String),
    (Cover.with_tilt_status_topic c v).tilt_status_topic = some v ∧ Cover.agreeExcept 40 (Cover.with_tilt_status_topic c v) c := by
  intro c v
  exact ⟨rfl, by simp [Cover.agreeExcept, Cover.with_tilt_status_topic]⟩

/-- Builder frame property: `Cover::unique_id` sets only its own field. -/
theorem frame_with_unique_id : ∀ (c : Cover) (v : String),
    (Cover.with_unique_id c v).unique_id = some v ∧ Cover.agreeExcept 41 (Cover.with_unique_id c v) c := by
  intro c v
  exact ⟨rfl, by simp [Cover.agreeExcept, Cover.with_unique_id]⟩

/-- Builder frame property: `Cover::value_template` sets only its own field. -/
theorem frame_with_value_template : ∀ (c : Cover) (v : String),
    (Cover.with_value_template c v).value_template = some v ∧ Cover.agreeExcept 42 (Cover.with_value_template c v) c := by
  intro c v
  exact ⟨rfl, by simp [Cover.agreeExcept, Cover.with_value_template]⟩

/-- C10: every builder method on Cover modifies exactly the field it is named
after — setting it to `Some` of the supplied value (or the value itself for
origin, device and availability) — and leaves every other field unchanged. -/
theorem cover_builder_frame :
    (∀ (c : Cover) (v : String),  Cover.topic_prefix ( Cover.with_topic_prefix c v) = some v ∧ Cover.agreeExcept 0 ( Cover.with_topic_prefix c v) c)
  ∧ (∀ (c : Cover) (v : Origin), (Cover.with_origin c v).origin = v ∧ Cover.agreeExcept 1 (Cover.with_origin c v) c)
  ∧ (∀ (c : Cover) (v : Device), (Cover.with_device c v).device = v ∧ Cover.agreeExcept 2 (Cover.with_device c v) c)
  ∧ (∀ (c : Cover) (v : Availability), (Cover.with_availability c v).availability = v ∧ Cover.agreeExcept 3 (Cover.with_availability c v) c)
  ∧ (∀ (c : Cover) (v : EntityCategory), (Cover.with_entity_category c v).entity_category = some v ∧ Cover.agreeExcept 4 (Cover.with_entity_category c v) c)
  ∧ (∀ (c : Cover) (v : String), (Cover.with_command_topic c v).command_topic = some v ∧ Cover.agreeExcept 5 (Cover.with_command_topic c v) c)
  ∧ (∀ (c : Cover) (v : String), (Cover.with_device_class c v).device_class = some v ∧ Cover.agreeExcept 6 (Cover.with_device_class c v) c)
  ∧ (∀ (c : Cover) (v : Bool), (Cover.with_enabled_by_default c v).enabled_by_default = some v ∧ Cover.agreeExcept 7 (Cover.with_enabled_by_default c v) c)
  ∧ (∀ (c : Cover) (v : String), (Cover.with_encoding c v).encoding = some v ∧ Cover.agreeExcept 8 (Cover.with_encoding c v) c)
  ∧ (∀ (c : Cover) (v : String), (Cover.with_icon c v).icon = some v ∧ Cover.agreeExcept 9 (Cover.with_icon c v) c)
  ∧ (∀ (c : Cover) (v : String), (Cover.with_json_attributes_template c v).json_attributes_template = some v ∧ Cover.agreeExcept 10 (Cover.with_json_attributes_template c v) c)
  ∧ (∀ (c : Cover) (v : String), (Cover.with_json_attributes_topic c v).json_attributes_topic = some v ∧ Cover.agreeExcept 11 (Cover.with_json_attributes_topic c v) c)
  ∧ (∀ (c : Cover) (v : String), (Cover.with_name c v).name = some v ∧ Cover.agreeExcept 12 (Cover.with_name c v) c)
  ∧ (∀ (c : Cover) (v : String), (Cover.with_object_id c v).object_id = some v ∧ Cover.agreeExcept 13 (Cover.with_object_id c v) c)
  ∧ (∀ (c : Cover) (v : Bool), (Cover.with_optimistic c v).optimistic = some v ∧ Cover.agreeExcept 14 (Cover.with_optimistic c v) c)
  ∧ (∀ (c : Cover) (v : String), (Cover.with_payload_close c v).payload_close = some v ∧ Cover.agreeExcept 15 (Cover.with_payload_close c v) c)
  ∧ (∀ (c : Cover) (v : String), (Cover.with_payload_open c v).payload_open = some v ∧ Cover.agreeExcept 16 (Cover.with_payload_open c v) c)
  ∧ (∀ (c : Cover) (v : String), (Cover.with_payload_stop c v).payload_stop = some v ∧ Cover.agreeExcept 17 (Cover.with_payload_stop c v) c)
  ∧ (∀ (c : Cover) (v : Int), (Cover.with_position_closed c v).position_closed = some v ∧ Cover.agreeExcept 18 (Cover.with_position_closed c v) c)
  ∧ (∀ (c : Cover) (v : Int), (Cover.with_position_open c v).position_open = some v ∧ Cover.agreeExcept 19 (Cover.with_position_open c v) c)
  ∧ (∀ (c : Cover) (v : String), (Cover.with_position_template c v).position_template = some v ∧ Cover.agreeExcept 20 (Cover.with_position_template c v) c)
  ∧ (∀ (c : Cover) (v : String), (Cover.with_position_topic c v).position_topic = some v ∧ Cover.agreeExcept 21 (Cover.with_position_topic c v) c)
  ∧ (∀ (c : Cover) (v : Qos), (Cover.with_qos c v).qos = some v ∧ Cover.agreeExcept 22 (Cover.with_qos c v) c)
  ∧ (∀ (c : Cover) (v : Bool), (Cover.with_retain c v).retain = some v ∧ Cover.agreeExcept 23 (Cover.with_retain c v) c)
  ∧ (∀ (c : Cover) (v : String), (Cover.with_set_position_template c v).set_position_template = some v ∧ Cover.agreeExcept 24 (Cover.with_set_position_template c v) c)
  ∧ (∀ (c : Cover) (v : String), (Cover.with_set_position_topic c v).set_position_topic = some v ∧ Cover.agreeExcept 25 (Cover.with_set_position_topic c v) c)
  ∧ (∀ (c : Cover) (v : String), (Cover.with_state_closed c v).state_closed = some v ∧ Cover.agreeExcept 26 (Cover.with_state_closed c v) c)
  ∧ (∀ (c : Cover) (v : String), (Cover.with_state_closing c v).state_closing = some v ∧ Cover.agreeExcept 27 (Cover.with_state_closing c v) c)
  ∧ (∀ (c : Cover) (v : String), (Cover.with_state_open c v).state_open = some v ∧ Cover.agreeExcept 28 (Cover.with_state_open c v) c)
  ∧ (∀ (c : Cover) (v : String), (Cover.with_state_opening c v).state_opening = some v ∧ Cover.agreeExcept 29 (Cover.with_state_opening c v) c)
  ∧ (∀ (c : Cover) (v : String), (Cover.with_state_stopped c v).state_stopped = some v ∧ Cover.agreeExcept 30 (Cover.with_state_stopped c v) c)
  ∧ (∀ (c : Cover) (v : String), (Cover.with_state_topic c v).state_topic = some v ∧ Cover.agreeExcept 31 (Cover.with_state_topic c v) c)
  ∧ (∀ (c : Cover) (v : Int), (Cover.with_tilt_closed_value c v).tilt_closed_value = some v ∧ Cover.agreeExcept 32 (Cover.with_tilt_closed_value c v) c)
  ∧ (∀ (c : Cover) (v : String), (Cover.with_tilt_command_template c v).tilt_command_template = some v ∧ Cover.agreeExcept 33 (Cover.with_tilt_command_template c v) c)
  ∧ (∀ (c : Cover) (v : String), (Cover.with_tilt_command_topic c v).tilt_command_topic = some v ∧ Cover.agreeExcept 34 (Cover.with_tilt_command_topic c v) c)
  ∧ (∀ (c : Cover) (v : Int), (Cover.with_tilt_max c v).tilt_max = some v ∧ Cover.agreeExcept 35 (Cover.with_tilt_max c v) c)
  ∧ (∀ (c : Cover) (v : Int), (Cover.with_tilt_min c v).tilt_min = some v ∧ Cover.agreeExcept 36 (Cover.with_tilt_min c v) c)
  ∧ (∀ (c : Cover) (v : Int), (Cover.with_tilt_opened_value c v).tilt_opened_value = some v ∧ Cover.agreeExcept 37 (Cover.with_tilt_opened_value c v) c)
  ∧ (∀ (c : Cover) (v : Bool), (Cover.with_tilt_optimistic c v).tilt_optimistic = some v ∧ Cover.agreeExcept 38 (Cover.with_tilt_optimistic c v) c)
  ∧ (∀ (c : Cover) (v : String), (Cover.with_tilt_status_template c v).tilt_status_template = some v ∧ Cover.agreeExcept 39 (Cover.with_tilt_status_template c v) c)
  ∧ (∀ (c : Cover) (v : String), (Cover.with_tilt_status_topic c v).tilt_status_topic = some v ∧ Cover.agreeExcept 40 (Cover.with_tilt_status_topic c v) c)
  ∧ (∀ (c : Cover) (v : String), (Cover.with_unique_id c v).unique_id = some v ∧ Cover.agreeExcept 41 (Cover.with_unique_id c v) c)
  ∧ (∀ (c : Cover) (v : String), (Cover.with_value_template c v).value_template = some v ∧ Cover.agreeExcept 42 (Cover.with_value_template c v) c) :=
  ⟨ frame_with_topic_prefix,
   frame_with_origin,
   frame_with_device,
   frame_with_availability,
   frame_with_entity_category,
   frame_with_command_topic,
   frame_with_device_class,
   frame_with_enabled_by_default,
   frame_with_encoding,
   frame_with_icon,
   frame_with_json_attributes_template,
   frame_with_json_attributes_topic,
   frame_with_name,
   frame_with_object_id,
   frame_with_optimistic,
   frame_with_payload_close,
   frame_with_payload_open,
   frame_with_payload_stop,
   frame_with_position_closed,
   frame_with_position_open,
   frame_with_position_template,
   frame_with_position_topic,
   frame_with_qos,
   frame_with_retain,
   frame_with_set_position_template,
   frame_with_set_position_topic,
   frame_with_state_closed,
   frame_with_state_closing,
   frame_with_state_open,
   frame_with_state_opening,
   frame_with_state_stopped,
   frame_with_state_topic,
   frame_with_tilt_closed_value,
   frame_with_tilt_command_template,
   frame_with_tilt_command_topic,
   frame_with_tilt_max,
   frame_with_tilt_min,
   frame_with_tilt_opened_value,
   frame_with_tilt_optimistic,
   frame_with_tilt_status_template,
   frame_with_tilt_status_topic,
   frame_with_unique_id,
   frame_with_value_template⟩

/-- C10 witness: the `name` setter frame property at a concrete cover. -/
theorem cover_builder_frame_witness :
    (Cover.with_name coverDefault "x").name = some "x"
  ∧ Cover.agreeExcept 12 (Cover.with_name coverDefault "x") coverDefault :=
  cover_builder_frame.2.2.2.2.2.2.2.2.2.2.2.2.1 coverDefault "x"


/-- C1: evaluation at the failing input.  On `Number`, the four optional fields
without a skip attribute (`~`, `cmd_tpl`, `opt`, `ret`) serialize as an explicit
`null` when unset, while a skip-marked optional field such as `ic` is omitted —
so "an unset optional field never appears, in particular never as an explicit
null" fails on `Number::default()`. -/
theorem number_unset_optionals_serialize_null :
    lookupKey "~" ( Number.serialize numberDefault) = some Json.null
  ∧ lookupKey "cmd_tpl" ( Number.serialize numberDefault) = some Json.null
  ∧ lookupKey "opt" ( Number.serialize numberDefault) = some Json.null
  ∧ lookupKey "ret" ( Number.serialize numberDefault) = some Json.null
  ∧ lookupKey "ic" ( Number.serialize numberDefault) = none :=
  ⟨rfl, rfl, rfl, rfl, rfl⟩

/-- C2 counterexample: with topic-prefix `home/cover` configured, the state
topic `~/state` is serialized verbatim under `stat_t`, not resolved to
`home/cover/state` as the claim states. -/
theorem cover_topic_not_resolved_at_serialization :
    lookupKey "stat_t" (Cover.serialize coverC2) = some (Json.str "~/state")
  ∧ Json.str "~/state" ≠ Json.str (resolveTopic (some "home/cover") "~/state") := by
  refine ⟨rfl, ?_⟩
  intro h
  injection h with h2
  exact absurd h2 (by decide)

/-- C2 (amended): topic fields are serialized verbatim — the `~` placeholder is
left in place and the configured prefix is emitted under its own key `~`; the
substring replacement described by the spec (the resolver) maps `~/state` with
prefix `home/cover` to `home/cover/state` and leaves it untouched without a
prefix, but it is the consuming hub, not serialization, that applies it. -/
theorem topics_serialized_verbatim :
    (∀ (c : Cover) (p : String), Cover.topic_prefix c = some p →
        lookupKey "~" (Cover.serialize c) = some (Json.str p))
  ∧ (∀ n : Number, lookupKey "stat_t" ( Number.serialize n) = some (Json.str n.state_topic))
  ∧ resolveTopic (some "home/cover") "~/state" = "home/cover/state"
  ∧ resolveTopic none "~/state" = "~/state" := by
  refine ⟨?_, number_stat_t_key, by decide, rfl⟩
  intro c p h
  unfold Cover.serialize
  rw [h]
  simp only [List.append_assoc]
  simp [optField, lookupKey]

/-- C2 witness: the amended theorem applied to the concrete scenario cover. -/
theorem topics_serialized_verbatim_witness :
    lookupKey "~" (Cover.serialize coverC2) = some (Json.str "home/cover") :=
  topics_serialized_verbatim.1 coverC2 "home/cover" rfl

/-- C3 counterexample: the repository test asserts that the Number whose
availability is `single_topic("~/availability").expire_after(60)` serializes
WITH `"avty_mode": "all"`, while the spec-modelled serialization of that very
value has no `avty_mode` — so "an Availability built with single_topic never
yields an avty_mode key" is false on the code. -/
theorem single_topic_test_emits_avty_mode :
    lookupKey "avty_mode" numberTestExpected = some (Json.str "all")
  ∧ lookupKey "avty" numberTestExpected
      = some (Json.arr [Json.obj [("t", Json.str "~/availability")]])
  ∧ Availability.serialize
        (Availability.set_expire_after (Availability.single_topic "~/availability") 60)
      = [("avty", Json.arr [Json.obj [("t", Json.str "~/availability")]]),
         ("exp_aft", Json.num 60)] :=
  ⟨rfl, rfl, rfl⟩

/-- C3 (amended): an Availability built by `single_topic` alone serializes to
exactly one `avty` entry `\x7b"t": topic\x7d` with the default payloads omitted and
no `avty_mode` key; once `expire_after` is applied, the repository's own test
instead asserts that `avty_mode` is emitted as `all`. -/
theorem single_topic_serialization :
    ∀ t : String, Availability.serialize (Availability.single_topic t)
      = [("avty", Json.arr [Json.obj [("t", Json.str t)]])] :=
  fun _ => rfl

/-- C3 witness: the amended theorem at the spec scenario's topic. -/
theorem single_topic_serialization_witness :
    Availability.serialize (Availability.single_topic "home/cover/avail")
      = [("avty", Json.arr [Json.obj [("t", Json.str "home/cover/avail")]])] :=
  single_topic_serialization "home/cover/avail"

/-- C4: constructing an Availability with both the legacy single-topic shortcut
and a non-empty entry list fails at construction with a configuration-conflict
error, and no successfully constructed value has both forms set. -/
theorem availability_conflict_construction :
    (∀ (e : AvailabilityEntry) (es : List AvailabilityEntry) (m : AvailabilityMode),
        es ≠ [] → Availability.construct (some e) es m = Except.error ConfigError.conflict)
  ∧ (∀ (sh : Option AvailabilityEntry) (es : List AvailabilityEntry)
        (m : AvailabilityMode) (a : Availability),
        Availability.construct sh es m = Except.ok a →
          ¬(a.single_topic_shortcut.isSome = true ∧ a.entries ≠ [])) := by
  constructor
  · intro e es m hes
    cases es
    · exact absurd rfl hes
    · rfl
  · intro sh es m a h hand
    rcases sh with _ | e
    · cases h
      simp at hand
    · rcases es with _ | ⟨e2, es2⟩
      · cases h
        simp at hand
      · exact Except.noConfusion h

/-- C4 witness: the conflict at a concrete shortcut plus entry list, and the
invariant at a concrete successfully constructed value. -/
theorem availability_conflict_construction_witness :
    Availability.construct (some entrySample) [entrySample] AvailabilityMode.All
      = Except.error ConfigError.conflict
  ∧ ¬(availabilityDefault.single_topic_shortcut.isSome = true
       ∧ availabilityDefault.entries ≠ []) :=
  ⟨availability_conflict_construction.1 entrySample [entrySample] AvailabilityMode.All
     (List.cons_ne_nil _ _),
   availability_conflict_construction.2 none [] AvailabilityMode.Latest availabilityDefault rfl⟩

/-- C5: Device and Origin serialize as nested values under `dev` and `o`, while
the Availability block's pairs are flattened into the top level of the entity
document. -/
theorem nested_blocks_and_flattened_availability :
    (∀ n : Number,
        lookupKey "o" ( Number.serialize n) = some (Json.obj (Origin.serialize n.origin))
      ∧ lookupKey "dev" ( Number.serialize n) = some (Json.obj (Device.serialize n.device))
      ∧ (∀ kv, kv ∈ Availability.serialize n.availability → kv ∈ Number.serialize n))
  ∧ (∀ c : Cover,
        lookupKey "o" (Cover.serialize c) = some (Json.obj (Origin.serialize c.origin))
      ∧ lookupKey "dev" (Cover.serialize c) = some (Json.obj (Device.serialize c.device))
      ∧ (∀ kv, kv ∈ Availability.serialize c.availability → kv ∈ Cover.serialize c)) := by
  constructor
  · intro n
    refine ⟨?_, ?_, ?_⟩
    · unfold Number.serialize
      simp only [List.append_assoc]
      simp [lookupKey_append_none, lookupKey_nullableField_ne, lookupKey_cons_ne,
            lookupKey_cons_hit]
    · unfold Number.serialize
      simp only [List.append_assoc]
      simp [lookupKey_append_none, lookupKey_nullableField_ne, lookupKey_cons_ne,
            lookupKey_cons_hit]
    · intro kv hkv
      unfold Number.serialize
      simp only [List.append_assoc, List.mem_append]
      tauto
  · intro c
    refine ⟨?_, ?_, ?_⟩
    · unfold Cover.serialize
      simp only [List.append_assoc]
      simp [lookupKey_append_none, lookupKey_optField_ne, lookupKey_cons_ne,
            lookupKey_cons_hit]
    · unfold Cover.serialize
      simp only [List.append_assoc]
      simp [lookupKey_append_none, lookupKey_optField_ne, lookupKey_cons_ne,
            lookupKey_cons_hit]
    · intro kv hkv
      unfold Cover.serialize
      simp only [List.append_assoc, List.mem_append]
      tauto

/-- C5 witness: the flattened `avty` pair of a concrete availability is a
top-level pair of the concrete Number document. -/
theorem nested_blocks_flattened_witness :
    ("avty", Json.arr [Json.obj [("t", Json.str "a")]]) ∈ Number.serialize numberAvail :=
  (nested_blocks_and_flattened_availability.1 numberAvail).2.2 _ (List.Mem.head _)

/-- C6 counterexample: no Cover value serializes an explicit `null` device
class — `device_class` is a two-state optional, so the claimed three-state
(unset / explicitly-null / present) modeling does not exist in the code. -/
theorem no_explicit_null_device_class :
    ¬ ∃ c : Cover, lookupKey "dev_cla" (Cover.serialize c) = some Json.null := by
  rintro ⟨c, h⟩
  exact cover_serialize_no_null c _ (mem_of_lookupKey h) rfl

/-- C6 (amended): the fields documented as "can be set to null" (device_class,
name) are modeled as plain two-state optionals: unset omits the key entirely,
set emits the plain value, and an explicit `null` is unrepresentable. -/
theorem nullable_doc_fields_are_two_state :
    (∀ c : Cover, lookupKey "dev_cla" (Cover.serialize c) ≠ some Json.null)
  ∧ (∀ n : Number, lookupKey "dev_cla" ( Number.serialize n) ≠ some Json.null)
  ∧ (∀ n : Number, lookupKey "name" ( Number.serialize n) ≠ some Json.null)
  ∧ lookupKey "dev_cla" (Cover.serialize coverDefault) = none
  ∧ (∀ (c : Cover) (s : String), c.device_class = some s →
      lookupKey "dev_cla" (Cover.serialize c) = some (Json.str s)) := by
  refine ⟨?_, ?_, ?_, rfl, ?_⟩
  · intro c h
    exact cover_serialize_no_null c _ (mem_of_lookupKey h) rfl
  · intro n h
    simpa using number_serialize_null_keys n _ (mem_of_lookupKey h) rfl
  · intro n h
    simpa using number_serialize_null_keys n _ (mem_of_lookupKey h) rfl
  · intro c s h
    unfold Cover.serialize
    rw [h]
    simp only [List.append_assoc]
    simp [lookupKey_append_none, lookupKey_optField_ne, lookupKey_cons_ne,
          lookupKey_nullableField_ne, lookupKey_single_ne, lookupKey_avail_ne,
          lookupKey_cons_hit, optField_some]

/-- C6 witness: the two-state behaviour at concrete covers. -/
theorem nullable_doc_fields_two_state_witness :
    lookupKey "dev_cla" (Cover.serialize coverDefault) ≠ some Json.null
  ∧ lookupKey "dev_cla" (Cover.serialize (Cover.with_device_class coverDefault "x"))
      = some (Json.str "x") :=
  ⟨nullable_doc_fields_are_two_state.1 coverDefault,
   nullable_doc_fields_are_two_state.2.2.2.2
     (Cover.with_device_class coverDefault "x") "x" rfl⟩

/-- C7: enumerated values serialize to their documented short string tag —
`slider`, `battery`, `%`, `all`/`any`/`latest` — never the internal variant
name, and inside a document the tag is what is emitted. -/
theorem enum_short_tags :
    DisplayMode.tag DisplayMode.Slider = "slider"
  ∧ DisplayMode.tag DisplayMode.Box = "box"
  ∧ NumberDeviceClass.tag NumberDeviceClass.Battery = "battery"
  ∧ Unit.tag Unit.Percentage = "%"
  ∧ AvailabilityMode.tag AvailabilityMode.All = "all"
  ∧ AvailabilityMode.tag AvailabilityMode.Any = "any"
  ∧ AvailabilityMode.tag AvailabilityMode.Latest = "latest"
  ∧ (∀ m : DisplayMode, DisplayMode.tag m ≠ DisplayMode.variantName m)
  ∧ (∀ d : NumberDeviceClass, NumberDeviceClass.tag d ≠ NumberDeviceClass.variantName d)
  ∧ (∀ n : Number, n.mode = some DisplayMode.Slider →
      lookupKey "mode" ( Number.serialize n) = some (Json.str "slider"))
  ∧ (∀ n : Number, n.device_class = some NumberDeviceClass.Battery →
      lookupKey "dev_cla" ( Number.serialize n) = some (Json.str "battery")) := by
  refine ⟨rfl, rfl, rfl, rfl, rfl, rfl, rfl, ?_, ?_, ?_, ?_⟩
  · intro m
    cases m <;> decide
  · intro d
    cases d <;> decide
  · intro n h
    unfold Number.serialize
    rw [h]
    simp only [List.append_assoc]
    simp [lookupKey_append_none, lookupKey_optField_ne, lookupKey_cons_ne,
          lookupKey_nullableField_ne, lookupKey_single_ne, lookupKey_avail_ne,
          lookupKey_cons_hit, optField_some, DisplayMode.tag]
  · intro n h
    unfold Number.serialize
    rw [h]
    simp only [List.append_assoc]
    simp [lookupKey_append_none, lookupKey_optField_ne, lookupKey_cons_ne,
          lookupKey_nullableField_ne, lookupKey_single_ne, lookupKey_avail_ne,
          lookupKey_cons_hit, optField_some, NumberDeviceClass.tag]

/-- C7 witness: the in-document conjuncts at a concrete Number. -/
theorem enum_short_tags_witness :
    lookupKey "mode" ( Number.serialize numberC7) = some (Json.str "slider")
  ∧ lookupKey "dev_cla" ( Number.serialize numberC7) = some (Json.str "battery") :=
  ⟨enum_short_tags.2.2.2.2.2.2.2.2.2.1 numberC7 rfl,
   enum_short_tags.2.2.2.2.2.2.2.2.2.2 numberC7 rfl⟩

/-- C8: serialization is a pure function of the entity value — equal values
give identical documents, builder setters for distinct fields commute, and the
emitted keys always follow struct declaration order. -/
theorem serialization_deterministic :
    (∀ a b : Cover, a = b → Cover.serialize a = Cover.serialize b)
  ∧ (∀ (c : Cover) (x : String) (b : Bool),
      Cover.serialize (Cover.with_retain (Cover.with_name c x) b)
        = Cover.serialize (Cover.with_name (Cover.with_retain c b) x))
  ∧ (∀ (c : Cover) (t p : String),
      Cover.serialize ( Cover.with_topic_prefix (Cover.with_state_topic c t) p)
        = Cover.serialize (Cover.with_state_topic ( Cover.with_topic_prefix c p) t))
  ∧ (∀ c : Cover, List.Sublist ((Cover.serialize c).map Prod.fst) coverDeclKeys) :=
  ⟨fun _ _ h => congrArg Cover.serialize h, fun _ _ _ => rfl, fun _ _ _ => rfl, cover_keys⟩

/-- C8 witness: determinism at a concrete cover. -/
theorem serialization_deterministic_witness :
    Cover.serialize coverDefault = Cover.serialize coverDefault :=
  serialization_deterministic.1 coverDefault coverDefault rfl

/-- C9: every serialized Number contains `stat_t` and `cmd_t` carrying the
(possibly empty) state and command topic strings — the two fields are plain
non-optional strings and can never be omitted; `Number::default()` yields empty
strings for both. -/
theorem number_required_topics_always_present :
    (∀ n : Number, lookupKey "stat_t" ( Number.serialize n) = some (Json.str n.state_topic))
  ∧ (∀ n : Number, lookupKey "cmd_t" ( Number.serialize n) = some (Json.str n.command_topic))
  ∧ lookupKey "stat_t" ( Number.serialize numberDefault) = some (Json.str "")
  ∧ lookupKey "cmd_t" ( Number.serialize numberDefault) = some (Json.str "") :=
  ⟨number_stat_t_key, number_cmd_t_key, rfl, rfl⟩

end HaMqtt
